import Mathlib

/-!
Verification of the Task orchestration engine of the zgsm repository
(`src/utils/diffLines.ts`, class `Task`).

The engine is shallowly embedded: the mutable `Task` instance becomes an
explicit `TaskState` record, each method becomes a state-transition
function, and all externally visible side effects (persistence calls,
webview notifications, event emissions, telemetry) are returned as an
explicit `Effect` list.  `Date.now()` is passed in as an explicit `now`
argument, and each fallible persistence call is passed its result
(`Except String Unit`) as an argument, mirroring the `try/catch` in the
source.

Naming note: the source field `ClineMessage.partial` (tri-state:
`true` = still streaming, `false` = completion of a streamed message,
`undefined` = atomic message) is called `isPartial` here.
-/

namespace Zgsm

/-- Role of a model-facing message (`Anthropic.MessageParam.role`). -/
inductive Role
  | user
  | assistant
  deriving DecidableEq, Repr

/-- One content block of a model-facing message.  Only the variants the
orchestration core itself constructs are modelled. -/
inductive Block
  | text (s : String)
  | image (src : String)
  deriving DecidableEq, Repr

/-- A model-facing message as stored in `apiConversationHistory`:
the `Anthropic.MessageParam` plus the timestamp stamped by
`addToApiConversationHistory` (`{ ...message, ts: Date.now() }`). -/
structure ApiMessage where
  role : Role
  content : List Block
  ts : Nat
  deriving DecidableEq, Repr

/-- An un-stamped model-facing message (`Anthropic.MessageParam`). -/
structure MessageParam where
  role : Role
  content : List Block
  deriving DecidableEq, Repr

/-- Kind of a display message: `type: "ask"` with its `ClineAsk` tag, or
`type: "say"` with its `ClineSay` tag.  The tags are kept as strings,
as in the source. -/
inductive MsgKind
  | ask (tag : String)
  | say (tag : String)
  deriving DecidableEq, Repr

/-- Cancellation reason recorded on the `api_req_started` display message
(`ClineApiReqCancelReason`). -/
inductive CancelReason
  | streaming_failed
  | user_cancelled
  deriving DecidableEq, Repr

/-- Payload of a `condense_context` display message (`ContextCondense`).
The monetary `cost` (a float in the source) is not modelled; no claim
depends on it. -/
structure ContextCondense where
  summary : String
  newContextTokens : Nat
  prevContextTokens : Nat
  deriving DecidableEq, Repr

/-- The request-info record the source keeps JSON-serialized inside the
`text` of the `api_req_started` display message (`ClineApiReqInfo`).
Only the fields written by `abortStream`/`updateApiReqMsg` that claims
refer to are modelled, as a sibling record instead of a JSON string. -/
structure ApiReqInfo where
  cancelReason : Option CancelReason
  streamingFailedMessage : Option String
  deriving DecidableEq, Repr

/-- One user-facing display message (`ClineMessage`).  `isPartial` is the
source field `partial`: `some true` = still streaming, `some false` =
completion of a streamed message, `none` = atomic message.  `checkpoint`
records presence of the `checkpoint` payload. -/
structure ClineMessage where
  ts : Nat
  kind : MsgKind
  text : Option String
  images : Option (List String)
  isPartial : Option Bool
  progressStatus : Option String
  checkpoint : Bool
  contextCondense : Option ContextCondense
  reqInfo : Option ApiReqInfo
  deriving DecidableEq, Repr

/-- Operator response values (`ClineAskResponse`). -/
inductive ClineAskResponse
  | yesButtonClicked
  | noButtonClicked
  | messageResponse
  | objectResponse
  deriving DecidableEq, Repr

/-- Externally visible side effects of the engine, in emission order:
persistence calls, webview notifications, event emissions, telemetry. -/
inductive Effect
  | postStateToWebview
  | messageCreated (ts : Nat)
  | postPartialMessageToWebview (ts : Nat)
  | messageUpdated (ts : Nat)
  | saveTaskMessages
  | taskTokenUsageUpdated
  | updateTaskHistory
  | saveApiMessages
  | persistenceErrorLogged (e : String)
  | taskAskResponded
  | taskUnpaused
  | taskAborted
  | releaseTerminals
  | closeBrowsers
  | revertDiffChanges
  | telemetryConsecutiveMistakeError
  deriving DecidableEq, Repr

/-- Result of one persistence call, supplied by the environment. -/
abbrev SaveResult := Except String Unit

/-- The mutable state of one `Task` instance, restricted to the fields the
orchestration methods under verification read or write. -/
structure TaskState where
  abort : Bool
  abandoned : Bool
  isPaused : Bool
  didFinishAbortingStream : Bool
  isStreaming : Bool
  diffViewIsEditing : Bool
  pauseInterval : Option Nat
  apiConversationHistory : List ApiMessage
  clineMessages : List ClineMessage
  askResponse : Option ClineAskResponse
  askResponseText : Option String
  askResponseImages : Option (List String)
  lastMessageTs : Option Nat
  consecutiveMistakeCount : Nat
  consecutiveMistakeLimit : Nat
  deriving DecidableEq, Repr

/-- Replace the last element of a list by applying `f` to it (in-place
mutation of `this.clineMessages.at(-1)` in the source). -/
def setLast (msgs : List ClineMessage) (f : ClineMessage → ClineMessage) : List ClineMessage :=
  match msgs.getLast? with
  | some m => msgs.dropLast ++ [f m]
  | none => msgs

/-- Timestamp of the last display message (0 only in unreachable branches
that the source guards with the same emptiness check). -/
def lastTsOf (msgs : List ClineMessage) : Nat :=
  match msgs.getLast? with
  | some m => m.ts
  | none => 0

/-- Effects of `updateClineMessage(lastMessage)`: post a `partialMessage`
to the webview and emit a `message { action: "updated" }` event. -/
def updateLastEffects (msgs : List ClineMessage) : List Effect :=
  match msgs.getLast? with
  | some m => [.postPartialMessageToWebview m.ts, .messageUpdated m.ts]
  | none => []

/-- Embedding of `Task.saveApiConversationHistory`: the save is attempted;
on failure the error is logged (`console.error`) and not re-raised, and
the in-memory history is untouched either way. -/
def saveApiConversationHistoryFn (s : TaskState) (save : SaveResult) :
    TaskState × List Effect :=
  match save with
  | .ok _ => (s, [.saveApiMessages])
  | .error e => (s, [.persistenceErrorLogged e])

/-- Embedding of `Task.addToApiConversationHistory`: stamp the current
time, push onto the in-memory history, then best-effort save. -/
def addToApiConversationHistory (s : TaskState) (m : MessageParam) (now : Nat)
    (save : SaveResult) : TaskState × List Effect :=
  let s1 := { s with apiConversationHistory :=
    s.apiConversationHistory ++ [{ role := m.role, content := m.content, ts := now }] }
  saveApiConversationHistoryFn s1 save

/-- Embedding of `Task.saveClineMessages`: persist the display log, derive
metadata over it (emitting `taskTokenUsageUpdated`) and update the task
history; any failure in the block is logged and swallowed. -/
def saveClineMessagesFn (s : TaskState) (save : SaveResult) :
    TaskState × List Effect :=
  match save with
  | .ok _ => (s, [.saveTaskMessages, .taskTokenUsageUpdated, .updateTaskHistory])
  | .error e => (s, [.persistenceErrorLogged e])

/-- Embedding of `Task.addToClineMessages`: push the message, post the
full state to the webview, emit a `created` event, then save. -/
def addToClineMessages (s : TaskState) (m : ClineMessage) (save : SaveResult) :
    TaskState × List Effect :=
  let s1 := { s with clineMessages := s.clineMessages ++ [m] }
  let (s2, eff) := saveClineMessagesFn s1 save
  (s2, [.postStateToWebview, .messageCreated m.ts] ++ eff)

/-- The `isUpdatingPreviousPartial` test of `Task.ask`: the last display
message exists, is still streaming, and is an ask of the same subtype. -/
def isUpdatingPreviousPartialAsk (last : Option ClineMessage) (tag : String) : Bool :=
  match last with
  | some m => decide (m.isPartial = some true ∧ m.kind = MsgKind.ask tag)
  | none => false

/-- The `isUpdatingPreviousPartial` test of `Task.say`. -/
def isUpdatingPreviousPartialSay (last : Option ClineMessage) (tag : String) : Bool :=
  match last with
  | some m => decide (m.isPartial = some true ∧ m.kind = MsgKind.say tag)
  | none => false

/-- Outcome of the synchronous part of `Task.ask`: the task was already
aborted (throw), the current ask promise was ignored (throw after a
streaming update), or the ask reached `pWaitFor` with identity `askTs`. -/
inductive AskOutcome
  | taskAborted
  | ignored
  | awaitResponse (askTs : Nat)
  deriving DecidableEq, Repr

/-- Clear the shared operator-response slot
(`askResponse`/`askResponseText`/`askResponseImages` set to undefined). -/
def clearAskSlot (s : TaskState) : TaskState :=
  { s with askResponse := none, askResponseText := none, askResponseImages := none }

/-- The `partial === true`, no-matching-partial branch of `Task.ask`:
append a new streaming ask and throw "Current ask promise was ignored". -/
def askNewPartialTrue (s : TaskState) (tag : String) (text : Option String)
    (now : Nat) (save : SaveResult) : TaskState × List Effect × AskOutcome :=
  let s1 := { s with lastMessageTs := some now }
  let (s2, eff) := addToClineMessages s1
    { ts := now, kind := .ask tag, text := text, images := none,
      isPartial := some true, progressStatus := none, checkpoint := false,
      contextCondense := none, reqInfo := none } save
  (s2, eff, .ignored)

/-- The new-and-complete branch of `Task.ask` (no matching streaming
message, or `partial === undefined`): clear the response slot, append an
atomic ask, and proceed to wait on its timestamp. -/
def askNewComplete (s : TaskState) (tag : String) (text : Option String)
    (now : Nat) (save : SaveResult) : TaskState × List Effect × AskOutcome :=
  let s1 := { clearAskSlot s with lastMessageTs := some now }
  let (s2, eff) := addToClineMessages s1
    { ts := now, kind := .ask tag, text := text, images := none,
      isPartial := none, progressStatus := none, checkpoint := false,
      contextCondense := none, reqInfo := none } save
  (s2, eff, .awaitResponse now)

/-- Embedding of the synchronous part of `Task.ask` (everything up to and
excluding the `pWaitFor` poll, which `resolveAsk`/`pollAsk` model). -/
def ask (s : TaskState) (tag : String) (text : Option String)
    (isPartial : Option Bool) (progressStatus : Option String)
    (now : Nat) (save : SaveResult) : TaskState × List Effect × AskOutcome :=
  if s.abort then (s, [], .taskAborted)
  else
    match isPartial with
    | some true =>
      if isUpdatingPreviousPartialAsk s.clineMessages.getLast? tag then
        let upd := fun (m : ClineMessage) =>
          { m with text := text, isPartial := some true, progressStatus := progressStatus }
        let s1 := { s with clineMessages := setLast s.clineMessages upd }
        (s1, updateLastEffects s.clineMessages, .ignored)
      else
        askNewPartialTrue s tag text now save
    | some false =>
      if isUpdatingPreviousPartialAsk s.clineMessages.getLast? tag then
        let askTs := lastTsOf s.clineMessages
        let upd := fun (m : ClineMessage) =>
          { m with text := text, isPartial := some false, progressStatus := progressStatus }
        let s0 := clearAskSlot s
        let s1 := { s0 with lastMessageTs := some askTs,
                            clineMessages := setLast s.clineMessages upd }
        let (s2, eff) := saveClineMessagesFn s1 save
        (s2, eff ++ updateLastEffects s2.clineMessages, .awaitResponse askTs)
      else
        askNewComplete s tag text now save
    | none => askNewComplete s tag text now save

/-- Poll interval of the `pWaitFor` in `Task.ask` (milliseconds). -/
def askPollIntervalMs : Nat := 100

/-- Error raised out of `Task.ask` after the wait: the message identity
timestamp drifted ("Current ask promise was ignored"). -/
inductive AskError
  | ignored
  deriving DecidableEq, Repr

/-- The value `Task.ask` resolves with. -/
structure AskResult where
  response : ClineAskResponse
  text : Option String
  images : Option (List String)
  deriving DecidableEq, Repr

/-- One poll step of the wait in `Task.ask`: `none` when the `pWaitFor`
condition (`askResponse !== undefined || lastMessageTs !== askTs`) does
not hold yet; otherwise the post-wait check and resolution: a drifted
identity timestamp raises, a present response is returned and the slot
cleared (emitting `taskAskResponded`). -/
def resolveAsk (s : TaskState) (askTs : Nat) :
    Option (Except AskError (AskResult × TaskState × List Effect)) :=
  if s.lastMessageTs ≠ some askTs then some (.error .ignored)
  else
    match s.askResponse with
    | none => none
    | some r =>
      some (.ok ({ response := r, text := s.askResponseText, images := s.askResponseImages },
        clearAskSlot s, [.taskAskResponded]))

/-- The polling wait of `Task.ask` over the sequence of task states
observed at successive `askPollIntervalMs` ticks. -/
def pollAsk (askTs : Nat) : List TaskState →
    Option (Except AskError (AskResult × TaskState × List Effect))
  | [] => none
  | s :: rest =>
    match resolveAsk s askTs with
    | some out => some out
    | none => pollAsk askTs rest

/-- Embedding of `Task.handleWebviewAskResponse`: store the operator
response into the shared slot. -/
def handleWebviewAskResponse (s : TaskState) (r : ClineAskResponse)
    (text : Option String) (images : Option (List String)) : TaskState :=
  { s with askResponse := some r, askResponseText := text, askResponseImages := images }

/-- Outcome of `Task.say`: it either throws on an aborted task or
completes (resolving `undefined`). -/
inductive SayOutcome
  | taskAborted
  | completed
  deriving DecidableEq, Repr

/-- The `partial === true`, no-matching-partial branch of `Task.say`:
append a new streaming say; `lastMessageTs` is only advanced for
interactive messages. -/
def sayNewPartialTrue (s : TaskState) (tag : String) (text : Option String)
    (images : Option (List String)) (isNonInteractive : Bool)
    (contextCondense : Option ContextCondense) (now : Nat) (save : SaveResult) :
    TaskState × List Effect × SayOutcome :=
  let s1 := if isNonInteractive then s else { s with lastMessageTs := some now }
  let (s2, eff) := addToClineMessages s1
    { ts := now, kind := .say tag, text := text, images := images,
      isPartial := some true, progressStatus := none, checkpoint := false,
      contextCondense := contextCondense, reqInfo := none } save
  (s2, eff, .completed)

/-- The new-and-complete `partial === false` branch of `Task.say` (no
matching streaming message): append a complete say. -/
def sayNewCompleteFalse (s : TaskState) (tag : String) (text : Option String)
    (images : Option (List String)) (isNonInteractive : Bool)
    (contextCondense : Option ContextCondense) (now : Nat) (save : SaveResult) :
    TaskState × List Effect × SayOutcome :=
  let s1 := if isNonInteractive then s else { s with lastMessageTs := some now }
  let (s2, eff) := addToClineMessages s1
    { ts := now, kind := .say tag, text := text, images := images,
      isPartial := none, progressStatus := none, checkpoint := false,
      contextCondense := contextCondense, reqInfo := none } save
  (s2, eff, .completed)

/-- Embedding of `Task.say`. -/
def say (s : TaskState) (tag : String) (text : Option String)
    (images : Option (List String)) (isPartial : Option Bool)
    (checkpoint : Bool) (progressStatus : Option String)
    (isNonInteractive : Bool) (contextCondense : Option ContextCondense)
    (now : Nat) (save : SaveResult) : TaskState × List Effect × SayOutcome :=
  if s.abort then (s, [], .taskAborted)
  else
    match isPartial with
    | some true =>
      if isUpdatingPreviousPartialSay s.clineMessages.getLast? tag then
        let upd := fun (m : ClineMessage) =>
          { m with text := text, images := images, isPartial := some true,
                   progressStatus := progressStatus }
        let s1 := { s with clineMessages := setLast s.clineMessages upd }
        (s1, updateLastEffects s.clineMessages, .completed)
      else
        sayNewPartialTrue s tag text images isNonInteractive contextCondense now save
    | some false =>
      if isUpdatingPreviousPartialSay s.clineMessages.getLast? tag then
        let sayTs := lastTsOf s.clineMessages
        let upd := fun (m : ClineMessage) =>
          { m with text := text, images := images, isPartial := some false,
                   progressStatus := progressStatus }
        let s1 := if isNonInteractive then s else { s with lastMessageTs := some sayTs }
        let s2 := { s1 with clineMessages := setLast s1.clineMessages upd }
        let (s3, eff) := saveClineMessagesFn s2 save
        (s3, eff ++ updateLastEffects s3.clineMessages, .completed)
      else
        sayNewCompleteFalse s tag text images isNonInteractive contextCondense now save
    | none =>
      let s1 := if isNonInteractive then s else { s with lastMessageTs := some now }
      let (s2, eff) := addToClineMessages s1
        { ts := now, kind := .say tag, text := text, images := images,
          isPartial := none, progressStatus := none, checkpoint := checkpoint,
          contextCondense := contextCondense, reqInfo := none } save
      (s2, eff, .completed)

/-- Update the element at index `i` of a list with `f` (the in-place
mutation `this.clineMessages[lastApiReqIndex].text = ...`). -/
def updateAt (msgs : List ClineMessage) (i : Nat) (f : ClineMessage → ClineMessage) :
    List ClineMessage :=
  match msgs, i with
  | [], _ => []
  | m :: rest, 0 => f m :: rest
  | m :: rest, Nat.succ n => m :: updateAt rest n f

/-- Embedding of `Task.abortTask`: set the `abandoned` flag when asked,
set the abort flag, emit `taskAborted`, clear the pause polling interval,
release terminals and browsers, revert in-flight diff-view edits when a
stream is mid-flight, and best-effort save the display log. -/
def abortTask (s : TaskState) (isAbandoned : Bool) (save : SaveResult) :
    TaskState × List Effect :=
  let s1 := if isAbandoned then { s with abandoned := true } else s
  let s2 := { s1 with abort := true, pauseInterval := none }
  let revert := s2.isStreaming && s2.diffViewIsEditing
  let s3 := if revert then { s2 with diffViewIsEditing := false } else s2
  let (s4, eff) := saveClineMessagesFn s3 save
  let eRevert := if revert then [Effect.revertDiffChanges] else []
  (s4, [.taskAborted, .releaseTerminals, .closeBrowsers] ++ eRevert ++ eff)

/-- Embedding of the closure `updateApiReqMsg` inside
`recursivelyMakeClineRequests`: fold cancel reason and failure message
into the `api_req_started` message at `lastApiReqIndex` (the token/cost
numbers it also writes are not modelled; no claim depends on them). -/
def updateApiReqMsg (s : TaskState) (lastApiReqIndex : Nat)
    (cancelReason : Option CancelReason) (streamingFailedMessage : Option String) :
    TaskState :=
  let f := fun (m : ClineMessage) =>
    { m with reqInfo := some { cancelReason := cancelReason,
                               streamingFailedMessage := streamingFailedMessage } }
  { s with clineMessages := updateAt s.clineMessages lastApiReqIndex f }

/-- Embedding of the closure `abortStream` inside
`recursivelyMakeClineRequests`: revert any open diff view, finalize a
trailing streaming display message in place (its `ts` is deliberately
not touched), append the partial assistant output to the model-facing
history suffixed with the interruption marker, record the cancel reason
on the request-start message, save, and flag the finished abort. -/
def abortStream (s : TaskState) (cancelReason : CancelReason)
    (streamingFailedMessage : Option String) (assistantMessage : String)
    (lastApiReqIndex : Nat) (now : Nat) (save : SaveResult) :
    TaskState × List Effect :=
  let (s0, eRevert) :=
    if s.diffViewIsEditing then ({ s with diffViewIsEditing := false }, [Effect.revertDiffChanges])
    else (s, [])
  let finalizeUpd := fun (m : ClineMessage) => { m with isPartial := some false }
  let s1 :=
    match s0.clineMessages.getLast? with
    | some m =>
      if m.isPartial = some true then
        { s0 with clineMessages := setLast s0.clineMessages finalizeUpd }
      else s0
    | none => s0
  let marker :=
    if cancelReason = CancelReason.streaming_failed then "Response interrupted by API Error"
    else "Response interrupted by user"
  let (s2, e2) := addToApiConversationHistory s1
    { role := .assistant, content := [.text (assistantMessage ++ ("\n\n[" ++ marker ++ "]"))] }
    now save
  let s3 := updateApiReqMsg s2 lastApiReqIndex (some cancelReason) streamingFailedMessage
  let (s4, e4) := saveClineMessagesFn s3 save
  ({ s4 with didFinishAbortingStream := true }, eRevert ++ e2 ++ e4)

/-- Embedding of the `catch` block of the streaming `for await` loop in
`recursivelyMakeClineRequests` (a mid-stream failure, i.e. a failure
after the first chunk was already received): unless the instance is
abandoned, replicate a task cancellation — `abortTask()` followed by
`abortStream("streaming_failed", ...)` — after which the provider
re-initialises a fresh instance from persisted history (external).
No retry of the request is performed on this path. -/
def handleStreamError (s : TaskState) (assistantMessage : String)
    (errorMessage : String) (lastApiReqIndex : Nat) (now : Nat)
    (save : SaveResult) : TaskState × List Effect :=
  if s.abandoned then (s, [])
  else
    let (s1, e1) := abortTask s false save
    let (s2, e2) := abortStream s1 .streaming_failed (some errorMessage)
      assistantMessage lastApiReqIndex now save
    (s2, e1 ++ e2)

/-- A thrown `TaskAborted` condition. -/
inductive TaskError
  | taskAborted
  deriving DecidableEq, Repr

/-- The entry guard of `Task.recursivelyMakeClineRequests`: a request
iteration on an aborted task fails fast. -/
def recursivelyMakeClineRequestsGuard (s : TaskState) : Except TaskError Unit :=
  if s.abort then .error .taskAborted else .ok ()

/-- A parsed `google.rpc.RetryInfo` error detail whose `retryDelay`
matched the regular expression for whole seconds (the captured number). -/
structure RetryInfoDetail where
  retryDelaySeconds : Option Nat
  deriving DecidableEq, Repr

/-- The shape of a first-chunk request error as inspected by
`attemptApiRequest`: its HTTP status and any structured retry detail. -/
structure ApiRequestError where
  status : Option Nat
  retryInfo : Option RetryInfoDetail
  deriving DecidableEq, Repr

/-- The `requestDelaySeconds || 5` base delay of `attemptApiRequest`
(JavaScript `||`: an absent or zero setting falls back to 5). -/
def requestBaseDelay (requestDelaySeconds : Option Nat) : Nat :=
  match requestDelaySeconds with
  | some n => if n = 0 then 5 else n
  | none => 5

/-- The exponential backoff value of `attemptApiRequest`:
`Math.ceil(baseDelay * Math.pow(2, retryAttempt))`. -/
def exponentialRetryDelay (baseDelay : ℚ) (retryAttempt : Nat) : ℤ :=
  ⌈baseDelay * 2 ^ retryAttempt⌉

/-- The provider retry hint of `attemptApiRequest`: on a 429 whose error
details carry a `RetryInfo` delay of `n` whole seconds, the value `n + 1`
replaces the exponential backoff. -/
def retryHintDelay (err : ApiRequestError) : Option Nat :=
  if err.status = some 429 then
    match err.retryInfo with
    | some d =>
      match d.retryDelaySeconds with
      | some n => some (n + 1)
      | none => none
    | none => none
  else none

/-- The final wait of the auto-retry branch of `attemptApiRequest`:
`Math.max(exponentialDelay, rateLimitDelay)`, where the exponential value
has been replaced by the provider hint when one was present. -/
def firstChunkRetryDelay (baseDelay : ℚ) (retryAttempt : Nat)
    (rateLimitDelay : ℤ) (err : ApiRequestError) : ℤ :=
  let e : ℤ :=
    match retryHintDelay err with
    | some n => (n : ℤ)
    | none => exponentialRetryDelay baseDelay retryAttempt
  max e rateLimitDelay

/-- The retry that the auto-retry branch performs after the countdown:
its wait in seconds and the retry attempt number of the recursive
`attemptApiRequest` call. -/
structure RetryAction where
  delaySeconds : ℤ
  nextRetryAttempt : Nat
  deriving DecidableEq, Repr

/-- The first-chunk failure branch of `attemptApiRequest`: with
`autoApprovalEnabled && alwaysApproveResubmit` the request is retried
automatically after `firstChunkRetryDelay` seconds with `retryAttempt + 1`;
otherwise no automatic retry happens (a blocking `api_req_failed` ask is
surfaced instead). -/
def firstChunkFailureAutoRetry (autoApprovalEnabled alwaysApproveResubmit : Bool)
    (requestDelaySeconds : Option Nat) (retryAttempt : Nat)
    (rateLimitDelay : ℤ) (err : ApiRequestError) : Option RetryAction :=
  if autoApprovalEnabled && alwaysApproveResubmit then
    some { delaySeconds :=
             firstChunkRetryDelay ((requestBaseDelay requestDelaySeconds : Nat) : ℚ)
               retryAttempt rateLimitDelay err,
           nextRetryAttempt := retryAttempt + 1 }
  else none

/-- Embedding of `Task.resumePausedTask`: clear the paused flag, emit
`taskUnpaused`, append the child result as a `subtask_result` display
message, and append a user-role model message
`"[new_task completed] Result: <text>"`. -/
def resumePausedTask (s : TaskState) (lastMessage : String) (now : Nat)
    (save : SaveResult) : TaskState × List Effect × SayOutcome :=
  let s0 := { s with isPaused := false }
  let (s1, e1, o) := say s0 "subtask_result" (some lastMessage) none none false none
    false none now save
  match o with
  | .taskAborted => (s1, [Effect.taskUnpaused] ++ e1, .taskAborted)
  | .completed =>
    let (s2, e2) := addToApiConversationHistory s1
      { role := .user, content := [.text ("[new_task completed] Result: " ++ lastMessage)] }
      now save
    (s2, [Effect.taskUnpaused] ++ e1 ++ e2, .completed)

/-- Embedding of the consecutive-mistake guard at the top of
`recursivelyMakeClineRequests` (the block entered when
`consecutiveMistakeCount >= consecutiveMistakeLimit`): issue the blocking
`mistake_limit_reached` ask (whose resolution `resp` the operator
supplies), on a `messageResponse` fold `formatResponse.tooManyMistakes`
text and image blocks into the turn input and echo the feedback via
`say`, and in all cases reset the counter to 0.  The external
`formatResponse` helpers are passed in as `tooManyMistakes` and
`imageBlocks`; the guard is independent of their definitions. -/
def mistakeLimitGuard (s : TaskState) (userContent : List Block)
    (askText : String) (resp : AskResult)
    (tooManyMistakes : Option String → String)
    (imageBlocks : Option (List String) → List Block)
    (now : Nat) (save : SaveResult) : TaskState × List Block × List Effect :=
  if s.consecutiveMistakeCount ≥ s.consecutiveMistakeLimit then
    let (s1, e1, _) := ask s "mistake_limit_reached" (some askText) none none now save
    let (s2, content2, e2) :=
      if resp.response = ClineAskResponse.messageResponse then
        let content2 := userContent ++ [Block.text (tooManyMistakes resp.text)]
          ++ imageBlocks resp.images
        let (s2, e2, _) := say s1 "user_feedback" resp.text resp.images none false none
          false none now save
        (s2, content2, e2 ++ [Effect.telemetryConsecutiveMistakeError])
      else (s1, userContent, [])
    ({ s2 with consecutiveMistakeCount := 0 }, content2, e1 ++ e2)
  else (s, userContent, [])

/-- Poll interval of `Task.waitForResume` (milliseconds). -/
def pausePollIntervalMs : Nat := 1000

/-- Observable state of one pending `waitForResume` promise and its
polling interval: whether the interval timer is still registered, whether
the promise has resolved, and the owning task's paused flag. -/
structure WaitState where
  timerActive : Bool
  resolved : Bool
  isPaused : Bool
  deriving DecidableEq, Repr

/-- Events acting on a pending `waitForResume`: an interval tick (the
`setInterval` callback), the `clearInterval` performed by `abortTask`,
and the clearing of the paused flag (by `resumePausedTask`). -/
inductive WaitEvent
  | tick
  | clearByAbort
  | unpause
  deriving DecidableEq, Repr

/-- One step of the `waitForResume` timer semantics: the interval
callback fires only while the timer is registered, and resolves the
promise (clearing its own interval) only once `isPaused` is false. -/
def waitStep (w : WaitState) : WaitEvent → WaitState
  | .tick =>
    if w.timerActive && !w.isPaused then { w with timerActive := false, resolved := true }
    else w
  | .clearByAbort => { w with timerActive := false }
  | .unpause => { w with isPaused := false }

/-- Run a sequence of events on a pending `waitForResume`. -/
def runWait (w : WaitState) (events : List WaitEvent) : WaitState :=
  events.foldl waitStep w

/-- Starting `Task.waitForResume`: register the polling interval handle
on the task and create the pending promise's wait state. -/
def waitForResumeStart (s : TaskState) (timerId : Nat) : TaskState × WaitState :=
  ({ s with pauseInterval := some timerId },
   { timerActive := true, resolved := false, isPaused := s.isPaused })

/-- A freshly started task state, used to instantiate theorems at
concrete inputs. -/
def emptyState : TaskState :=
  { abort := false, abandoned := false, isPaused := false,
    didFinishAbortingStream := false, isStreaming := false,
    diffViewIsEditing := false, pauseInterval := none,
    apiConversationHistory := [], clineMessages := [],
    askResponse := none, askResponseText := none, askResponseImages := none,
    lastMessageTs := none, consecutiveMistakeCount := 0,
    consecutiveMistakeLimit := 3 }

/-! Helper lemmas about the list primitives used by the embedding. -/

theorem setLast_concat (l : List ClineMessage) (a : ClineMessage)
    (f : ClineMessage → ClineMessage) : setLast (l ++ [a]) f = l ++ [f a] := by
  simp [setLast, List.getLast?_concat, List.dropLast_concat]

theorem lastTsOf_concat (l : List ClineMessage) (a : ClineMessage) :
    lastTsOf (l ++ [a]) = a.ts := by
  simp [lastTsOf, List.getLast?_concat]

theorem updateLastEffects_concat (l : List ClineMessage) (a : ClineMessage) :
    updateLastEffects (l ++ [a]) =
      [.postPartialMessageToWebview a.ts, .messageUpdated a.ts] := by
  simp [updateLastEffects, List.getLast?_concat]

theorem isUpdatingPreviousPartialAsk_concat (l : List ClineMessage)
    (a : ClineMessage) (tag : String) :
    isUpdatingPreviousPartialAsk (l ++ [a]).getLast? tag =
      decide (a.isPartial = some true ∧ a.kind = MsgKind.ask tag) := by
  simp [isUpdatingPreviousPartialAsk, List.getLast?_concat]

theorem isUpdatingPreviousPartialSay_concat (l : List ClineMessage)
    (a : ClineMessage) (tag : String) :
    isUpdatingPreviousPartialSay (l ++ [a]).getLast? tag =
      decide (a.isPartial = some true ∧ a.kind = MsgKind.say tag) := by
  simp [isUpdatingPreviousPartialSay, List.getLast?_concat]

theorem saveClineMessagesFn_state (s : TaskState) (save : SaveResult) :
    (saveClineMessagesFn s save).1 = s := by
  cases save <;> rfl

theorem addToClineMessages_state (s : TaskState) (m : ClineMessage) (save : SaveResult) :
    (addToClineMessages s m save).1 = { s with clineMessages := s.clineMessages ++ [m] } := by
  cases save <;> rfl

theorem saveApiConversationHistoryFn_state (s : TaskState) (save : SaveResult) :
    (saveApiConversationHistoryFn s save).1 = s := by
  cases save <;> rfl

/-! Step lemmas for the partial-coalescing protocol of `ask` and `say`. -/

/-- A `partial=true` ask with no matching trailing streaming message
appends a fresh streaming entry stamped `now` and is ignored. -/
theorem ask_streaming_new (s : TaskState) (tag : String) (text : Option String)
    (ps : Option String) (now : Nat) (save : SaveResult)
    (hA : s.abort = false)
    (hG : isUpdatingPreviousPartialAsk s.clineMessages.getLast? tag = false) :
    (ask s tag text (some true) ps now save).1 =
      { s with lastMessageTs := some now,
               clineMessages := s.clineMessages ++
                 [{ ts := now, kind := .ask tag, text := text, images := none,
                    isPartial := some true, progressStatus := none, checkpoint := false,
                    contextCondense := none, reqInfo := none }] } ∧
    (ask s tag text (some true) ps now save).2.2 = AskOutcome.ignored := by
  cases save <;> simp [ask, hA, hG, askNewPartialTrue, addToClineMessages, saveClineMessagesFn]

/-- A `partial=true` ask whose trailing message is a streaming ask of the
same subtype mutates it in place (same `ts`) and is ignored. -/
theorem ask_streaming_matching (s : TaskState) (base : List ClineMessage)
    (m : ClineMessage) (tag : String) (text : Option String) (ps : Option String)
    (now : Nat) (save : SaveResult)
    (hA : s.abort = false) (hM : s.clineMessages = base ++ [m])
    (hp : m.isPartial = some true) (hk : m.kind = MsgKind.ask tag) :
    (ask s tag text (some true) ps now save).1 =
      { s with clineMessages := base ++
          [{ m with text := text, isPartial := some true, progressStatus := ps }] } ∧
    (ask s tag text (some true) ps now save).2.2 = AskOutcome.ignored := by
  simp [ask, hA, hM, setLast_concat, isUpdatingPreviousPartialAsk, hp, hk]

/-- A `partial=false` ask whose trailing message is a streaming ask of the
same subtype finalizes it in place, reusing its original `ts` as the ask
identity, and proceeds to wait on that identity. -/
theorem ask_finalize_matching (s : TaskState) (base : List ClineMessage)
    (m : ClineMessage) (tag : String) (text : Option String) (ps : Option String)
    (now : Nat) (save : SaveResult)
    (hA : s.abort = false) (hM : s.clineMessages = base ++ [m])
    (hp : m.isPartial = some true) (hk : m.kind = MsgKind.ask tag) :
    (ask s tag text (some false) ps now save).1 =
      { s with askResponse := none, askResponseText := none, askResponseImages := none,
               lastMessageTs := some m.ts,
               clineMessages := base ++
                 [{ m with text := text, isPartial := some false, progressStatus := ps }] } ∧
    (ask s tag text (some false) ps now save).2.2 = AskOutcome.awaitResponse m.ts := by
  cases save <;>
    simp [ask, hA, hM, setLast_concat, lastTsOf_concat, clearAskSlot, saveClineMessagesFn,
      isUpdatingPreviousPartialAsk, hp, hk]

/-- Arguments of one streaming (`partial=true`) `ask` call in a chain of
updates to the same logical message. -/
structure AskUpd where
  text : Option String
  progressStatus : Option String
  now : Nat
  deriving DecidableEq, Repr

/-- Run a sequence of streaming `ask` calls of subtype `tag`. -/
def runAskUpds (tag : String) (save : SaveResult) : TaskState → List AskUpd → TaskState
  | s, [] => s
  | s, u :: rest =>
    runAskUpds tag save (ask s tag u.text (some true) u.progressStatus u.now save).1 rest

/-- Invariant of a chain of streaming `ask` updates: the trailing
streaming message is mutated in place — the log keeps its shape and the
entry keeps its identity timestamp and all fields the update does not
touch. -/
theorem runAskUpds_inv (tag : String) (save : SaveResult) (us : List AskUpd) :
    ∀ (s : TaskState) (base : List ClineMessage) (m : ClineMessage),
    s.abort = false → s.clineMessages = base ++ [m] →
    m.isPartial = some true → m.kind = MsgKind.ask tag →
    ∃ m' : ClineMessage,
      runAskUpds tag save s us = { s with clineMessages := base ++ [m'] } ∧
      m'.ts = m.ts ∧ m'.isPartial = some true ∧ m'.kind = MsgKind.ask tag ∧
      m'.images = m.images ∧ m'.checkpoint = m.checkpoint ∧
      m'.contextCondense = m.contextCondense ∧ m'.reqInfo = m.reqInfo := by
  induction us with
  | nil =>
    intro s base m hA hM hp hk
    refine ⟨m, ?_, rfl, hp, hk, rfl, rfl, rfl, rfl⟩
    rw [runAskUpds, ← hM]
  | cons u rest ih =>
    intro s base m hA hM hp hk
    rw [runAskUpds]
    have hstep := (ask_streaming_matching s base m tag u.text u.progressStatus
      u.now save hA hM hp hk).1
    rw [hstep]
    obtain ⟨m', h1, h2, h3, h4, h5, h6, h7, h8⟩ :=
      ih { s with clineMessages := base ++
            [{ m with text := u.text, isPartial := some true,
                      progressStatus := u.progressStatus }] }
        base { m with text := u.text, isPartial := some true,
                      progressStatus := u.progressStatus }
        (by simpa using hA) (by simp) (by simp) (by simpa using hk)
    exact ⟨m', by simpa using h1, by simpa using h2, h3, h4, by simpa using h5,
      by simpa using h6, by simpa using h7, by simpa using h8⟩

/-- Arguments of one streaming (`partial=true`) `say` call in a chain of
updates to the same logical message. -/
structure SayUpd where
  text : Option String
  images : Option (List String)
  progressStatus : Option String
  now : Nat
  deriving DecidableEq, Repr

/-- Run a sequence of streaming `say` calls of subtype `tag` (each with
its own `isNonInteractive` flag, which the in-place update path never
consults). -/
def runSayUpds (tag : String) (ni : Bool) (save : SaveResult) :
    TaskState → List SayUpd → TaskState
  | s, [] => s
  | s, u :: rest =>
    runSayUpds tag ni save
      (say s tag u.text u.images (some true) false u.progressStatus ni none u.now save).1 rest

/-- A `partial=true` say whose trailing message is a streaming say of the
same subtype mutates it in place (same `ts`). -/
theorem say_streaming_matching (s : TaskState) (base : List ClineMessage)
    (m : ClineMessage) (tag : String) (text : Option String)
    (images : Option (List String)) (ckpt : Bool) (ps : Option String) (ni : Bool)
    (cc : Option ContextCondense) (now : Nat) (save : SaveResult)
    (hA : s.abort = false) (hM : s.clineMessages = base ++ [m])
    (hp : m.isPartial = some true) (hk : m.kind = MsgKind.say tag) :
    (say s tag text images (some true) ckpt ps ni cc now save).1 =
      { s with clineMessages := base ++
          [{ m with text := text, images := images, isPartial := some true,
                    progressStatus := ps }] } ∧
    (say s tag text images (some true) ckpt ps ni cc now save).2.2 =
      SayOutcome.completed := by
  simp [say, hA, hM, setLast_concat, isUpdatingPreviousPartialSay, hp, hk]

/-- A `partial=true` say with no matching trailing streaming message
appends a fresh streaming entry stamped `now` carrying the supplied
condense payload. -/
theorem say_streaming_new (s : TaskState) (tag : String) (text : Option String)
    (images : Option (List String)) (ckpt : Bool) (ps : Option String) (ni : Bool)
    (cc : Option ContextCondense) (now : Nat) (save : SaveResult)
    (hA : s.abort = false)
    (hG : isUpdatingPreviousPartialSay s.clineMessages.getLast? tag = false) :
    (say s tag text images (some true) ckpt ps ni cc now save).1.clineMessages =
      s.clineMessages ++
        [{ ts := now, kind := .say tag, text := text, images := images,
           isPartial := some true, progressStatus := none, checkpoint := false,
           contextCondense := cc, reqInfo := none }] ∧
    (say s tag text images (some true) ckpt ps ni cc now save).1.abort = s.abort ∧
    (say s tag text images (some true) ckpt ps ni cc now save).2.2 =
      SayOutcome.completed := by
  cases ni <;> cases save <;>
    simp [say, hA, hG, sayNewPartialTrue, addToClineMessages, saveClineMessagesFn]

/-- A `partial=false` say whose trailing message is a streaming say of the
same subtype finalizes it in place, keeping its identity timestamp. -/
theorem say_finalize_matching (s : TaskState) (base : List ClineMessage)
    (m : ClineMessage) (tag : String) (text : Option String)
    (images : Option (List String)) (ckpt : Bool) (ps : Option String) (ni : Bool)
    (cc : Option ContextCondense) (now : Nat) (save : SaveResult)
    (hA : s.abort = false) (hM : s.clineMessages = base ++ [m])
    (hp : m.isPartial = some true) (hk : m.kind = MsgKind.say tag) :
    (say s tag text images (some false) ckpt ps ni cc now save).1.clineMessages =
      base ++ [{ m with text := text, images := images, isPartial := some false,
                        progressStatus := ps }] ∧
    (say s tag text images (some false) ckpt ps ni cc now save).2.2 =
      SayOutcome.completed := by
  cases ni <;> cases save <;>
    simp [say, hA, hM, setLast_concat, lastTsOf_concat, saveClineMessagesFn,
      isUpdatingPreviousPartialSay, hp, hk]

/-- Invariant of a chain of streaming `say` updates, mirroring
`runAskUpds_inv`. -/
theorem runSayUpds_inv (tag : String) (ni : Bool) (save : SaveResult)
    (us : List SayUpd) :
    ∀ (s : TaskState) (base : List ClineMessage) (m : ClineMessage),
    s.abort = false → s.clineMessages = base ++ [m] →
    m.isPartial = some true → m.kind = MsgKind.say tag →
    ∃ m' : ClineMessage,
      runSayUpds tag ni save s us = { s with clineMessages := base ++ [m'] } ∧
      m'.ts = m.ts ∧ m'.isPartial = some true ∧ m'.kind = MsgKind.say tag ∧
      m'.checkpoint = m.checkpoint ∧
      m'.contextCondense = m.contextCondense ∧ m'.reqInfo = m.reqInfo := by
  induction us with
  | nil =>
    intro s base m hA hM hp hk
    refine ⟨m, ?_, rfl, hp, hk, rfl, rfl, rfl⟩
    rw [runSayUpds, ← hM]
  | cons u rest ih =>
    intro s base m hA hM hp hk
    rw [runSayUpds]
    have hstep := (say_streaming_matching s base m tag u.text u.images false
      u.progressStatus ni none u.now save hA hM hp hk).1
    rw [hstep]
    obtain ⟨m', h1, h2, h3, h4, h5, h6, h7⟩ :=
      ih { s with clineMessages := base ++
            [{ m with text := u.text, images := u.images, isPartial := some true,
                      progressStatus := u.progressStatus }] }
        base { m with text := u.text, images := u.images, isPartial := some true,
                      progressStatus := u.progressStatus }
        (by simpa using hA) (by simp) (by simp) (by simpa using hk)
    exact ⟨m', by simpa using h1, by simpa using h2, h3, h4, by simpa using h5,
      by simpa using h6, by simpa using h7⟩

/-- C1.  For every sequence of ask or say invocations of the same
(kind, subtype) in which one or more `partial=true` calls are followed by
a `partial=false` call, the display-message log gains exactly one entry
for that logical message, appended at the position of the first streaming
call; its identity timestamp is the one stamped by that first call
(`t0`), and the finalizing call reuses it instead of stamping a new one
(`tf` never appears in the log). -/
theorem c1_streamed_message_coalescing :
    (∀ (s : TaskState) (tag : String) (text0 textf ps0 psf : Option String)
       (t0 tf : Nat) (us : List AskUpd) (save : SaveResult),
      s.abort = false →
      isUpdatingPreviousPartialAsk s.clineMessages.getLast? tag = false →
      (ask (runAskUpds tag save (ask s tag text0 (some true) ps0 t0 save).1 us)
          tag textf (some false) psf tf save).1.clineMessages =
        s.clineMessages ++
          [{ ts := t0, kind := .ask tag, text := textf, images := none,
             isPartial := some false, progressStatus := psf, checkpoint := false,
             contextCondense := none, reqInfo := none }]) ∧
    (∀ (s : TaskState) (tag : String) (text0 textf : Option String)
       (images0 imagesf : Option (List String)) (ps0 psf : Option String)
       (ni : Bool) (cc : Option ContextCondense) (t0 tf : Nat)
       (us : List SayUpd) (save : SaveResult),
      s.abort = false →
      isUpdatingPreviousPartialSay s.clineMessages.getLast? tag = false →
      (say (runSayUpds tag ni save
            (say s tag text0 images0 (some true) false ps0 ni cc t0 save).1 us)
          tag textf imagesf (some false) false psf ni cc tf save).1.clineMessages =
        s.clineMessages ++
          [{ ts := t0, kind := .say tag, text := textf, images := imagesf,
             isPartial := some false, progressStatus := psf, checkpoint := false,
             contextCondense := cc, reqInfo := none }]) := by
  constructor
  · intro s tag text0 textf ps0 psf t0 tf us save hA hG
    have hfirst := (ask_streaming_new s tag text0 ps0 t0 save hA hG).1
    set s1 := (ask s tag text0 (some true) ps0 t0 save).1 with hs1
    obtain ⟨m', h1, h2, h3, h4, h5, h6, h7, h8⟩ :=
      runAskUpds_inv tag save us s1 s.clineMessages
        { ts := t0, kind := .ask tag, text := text0, images := none,
          isPartial := some true, progressStatus := none, checkpoint := false,
          contextCondense := none, reqInfo := none }
        (by rw [hfirst]; simpa using hA) (by rw [hfirst]) (by simp) (by simp)
    have hfin := (ask_finalize_matching
      { s1 with clineMessages := s.clineMessages ++ [m'] }
      s.clineMessages m' tag textf psf tf save
      (by simp only [TaskState.abort]; rw [hfirst]; simpa using hA)
      (by simp) h3 h4).1
    rw [h1, hfin]
    simp only at h2 h5 h6 h7 h8
    cases m'
    simp_all
  · intro s tag text0 textf images0 imagesf ps0 psf ni cc t0 tf us save hA hG
    obtain ⟨hfirstC, hfirstA, _⟩ :=
      say_streaming_new s tag text0 images0 false ps0 ni cc t0 save hA hG
    set s1 := (say s tag text0 images0 (some true) false ps0 ni cc t0 save).1 with hs1
    obtain ⟨m', h1, h2, h3, h4, h5, h6, h7⟩ :=
      runSayUpds_inv tag ni save us s1 s.clineMessages
        { ts := t0, kind := .say tag, text := text0, images := images0,
          isPartial := some true, progressStatus := none, checkpoint := false,
          contextCondense := cc, reqInfo := none }
        (by rw [hfirstA, hA]) hfirstC (by simp) (by simp)
    have hfin := (say_finalize_matching
      { s1 with clineMessages := s.clineMessages ++ [m'] }
      s.clineMessages m' tag textf imagesf false psf ni cc tf save
      (by simpa using hfirstA.trans hA) (by simp) h3 h4).1
    rw [h1, hfin]
    simp only at h2 h5 h6 h7
    cases m'
    simp_all

/-- Any `ask` that reaches the waiting phase has first cleared the shared
response slot and pointed `lastMessageTs` at its own identity timestamp. -/
theorem ask_awaitResponse_state (s : TaskState) (tag : String) (text : Option String)
    (ip : Option Bool) (ps : Option String) (now : Nat) (save : SaveResult) (ts : Nat)
    (h : (ask s tag text ip ps now save).2.2 = AskOutcome.awaitResponse ts) :
    (ask s tag text ip ps now save).1.askResponse = none ∧
    (ask s tag text ip ps now save).1.askResponseText = none ∧
    (ask s tag text ip ps now save).1.askResponseImages = none ∧
    (ask s tag text ip ps now save).1.lastMessageTs = some ts := by
  by_cases hA : s.abort
  · simp [ask, hA] at h
  · have hA' : s.abort = false := by simpa using hA
    match ip with
    | none =>
      cases save <;>
        simp [ask, hA', askNewComplete, clearAskSlot, addToClineMessages,
          saveClineMessagesFn] at h ⊢ <;> simp [h]
    | some true =>
      by_cases hG : isUpdatingPreviousPartialAsk s.clineMessages.getLast? tag
      · simp [ask, hA', hG] at h
      · cases save <;>
          simp [ask, hA', hG, askNewPartialTrue, addToClineMessages,
            saveClineMessagesFn] at h
    | some false =>
      by_cases hG : isUpdatingPreviousPartialAsk s.clineMessages.getLast? tag
      · cases save <;>
          simp [ask, hA', hG, clearAskSlot, saveClineMessagesFn] at h ⊢ <;> simp [h]
      · cases save <;>
          simp [ask, hA', hG, askNewComplete, clearAskSlot, addToClineMessages,
            saveClineMessagesFn] at h ⊢ <;> simp [h]

/-- C4.  An atomic ask blocks on a bounded-interval (100ms) poll of the
shared response slot, waking when a response is present or when
`lastMessageTs` no longer equals the ask's identity timestamp; at a poll
step where the identity has drifted the ask raises the superseded
("ignored") condition instead of returning a response; a poll step only
returns a response when the identity still matches and a response is
stored; the wait continues exactly while no response is stored and the
identity matches; and a streaming (`partial=true`) ask never reaches the
waiting phase at all — it always raises the ignored condition. -/
theorem c4_atomic_ask_wait_and_supersede :
    askPollIntervalMs = 100 ∧
    (∀ (askTs : Nat) (s : TaskState) (rest : List TaskState),
      s.lastMessageTs ≠ some askTs →
      pollAsk askTs (s :: rest) = some (.error .ignored)) ∧
    (∀ (s : TaskState) (askTs : Nat) (r : AskResult) (st : TaskState)
       (eff : List Effect),
      resolveAsk s askTs = some (.ok (r, st, eff)) →
      s.lastMessageTs = some askTs ∧ s.askResponse = some r.response) ∧
    (∀ (s : TaskState) (askTs : Nat),
      resolveAsk s askTs = none ↔
        (s.askResponse = none ∧ s.lastMessageTs = some askTs)) ∧
    (∀ (s : TaskState) (tag : String) (text : Option String) (ps : Option String)
       (now : Nat) (save : SaveResult),
      s.abort = false →
      (ask s tag text (some true) ps now save).2.2 = AskOutcome.ignored) := by
  refine ⟨rfl, ?_, ?_, ?_, ?_⟩
  · intro askTs s rest h
    simp [pollAsk, resolveAsk, h]
  · intro s askTs r st eff h
    by_cases hts : s.lastMessageTs = some askTs
    · cases hr : s.askResponse with
      | none => simp [resolveAsk, hts, hr] at h
      | some r0 =>
        simp [resolveAsk, hts, hr] at h
        refine ⟨hts, ?_⟩
        rw [← h.1]
    · simp [resolveAsk, hts] at h
  · intro s askTs
    by_cases hts : s.lastMessageTs = some askTs
    · cases hr : s.askResponse <;> simp [resolveAsk, hts, hr]
    · simp [resolveAsk, hts]
  · intro s tag text ps now save hA
    by_cases hG : isUpdatingPreviousPartialAsk s.clineMessages.getLast? tag
    · simp [ask, hA, hG]
    · cases save <;>
        simp [ask, hA, hG, askNewPartialTrue, addToClineMessages, saveClineMessagesFn]

/-- Witness for C4 at concrete inputs: a poll observation whose
`lastMessageTs` (7) differs from the ask identity (5) raises the ignored
condition, and a streaming ask on a fresh task is ignored. -/
theorem c4_witness :
    pollAsk 5 [{ emptyState with lastMessageTs := some 7 }] =
      some (.error .ignored) ∧
    (ask emptyState "command" (some "ls") (some true) none 3 (Except.ok ())).2.2 =
      AskOutcome.ignored := by
  constructor
  · exact c4_atomic_ask_wait_and_supersede.2.1 5
      { emptyState with lastMessageTs := some 7 } [] (by simp [emptyState])
  · exact c4_atomic_ask_wait_and_supersede.2.2.2.2 emptyState "command" (some "ls")
      none 3 (Except.ok ()) rfl

/-- C9.  The shared operator-response slot feeds at most one ask: every
ask that proceeds to wait starts by clearing the slot (so a response
stored for an earlier ask can never satisfy it — its first poll step
keeps waiting regardless of what the slot held before the ask), and a
successful resolution clears the slot again before returning. -/
theorem c9_response_slot_single_use :
    (∀ (s : TaskState) (tag : String) (text : Option String) (ip : Option Bool)
       (ps : Option String) (now : Nat) (save : SaveResult) (ts : Nat),
      (ask s tag text ip ps now save).2.2 = AskOutcome.awaitResponse ts →
      (ask s tag text ip ps now save).1.askResponse = none ∧
      (ask s tag text ip ps now save).1.askResponseText = none ∧
      (ask s tag text ip ps now save).1.askResponseImages = none) ∧
    (∀ (s : TaskState) (tag : String) (text : Option String) (ip : Option Bool)
       (ps : Option String) (now : Nat) (save : SaveResult) (ts : Nat),
      (ask s tag text ip ps now save).2.2 = AskOutcome.awaitResponse ts →
      resolveAsk (ask s tag text ip ps now save).1 ts = none) ∧
    (∀ (s : TaskState) (askTs : Nat) (r : AskResult) (st : TaskState)
       (eff : List Effect),
      resolveAsk s askTs = some (.ok (r, st, eff)) →
      st.askResponse = none ∧ st.askResponseText = none ∧
      st.askResponseImages = none) := by
  refine ⟨?_, ?_, ?_⟩
  · intro s tag text ip ps now save ts h
    obtain ⟨h1, h2, h3, _⟩ := ask_awaitResponse_state s tag text ip ps now save ts h
    exact ⟨h1, h2, h3⟩
  · intro s tag text ip ps now save ts h
    obtain ⟨h1, _, _, h4⟩ := ask_awaitResponse_state s tag text ip ps now save ts h
    simp [resolveAsk, h1, h4]
  · intro s askTs r st eff h
    by_cases hts : s.lastMessageTs = some askTs
    · cases hr : s.askResponse with
      | none => simp [resolveAsk, hts, hr] at h
      | some r0 =>
        simp [resolveAsk, hts, hr] at h
        rw [← h.2.1]
        simp [clearAskSlot]
    · simp [resolveAsk, hts] at h

/-- Witness for C9 at concrete inputs: a fresh atomic ask issued while a
stale response (from a previous ask) still sits in the slot clears it
and its first poll step keeps waiting instead of returning the stale
response. -/
theorem c9_witness :
    (ask (handleWebviewAskResponse emptyState .yesButtonClicked (some "old") none)
        "followup" (some "q") none none 3 (Except.ok ())).1.askResponse = none ∧
    resolveAsk (ask (handleWebviewAskResponse emptyState .yesButtonClicked (some "old") none)
        "followup" (some "q") none none 3 (Except.ok ())).1 3 = none := by
  constructor
  · exact (c9_response_slot_single_use.1
      (handleWebviewAskResponse emptyState .yesButtonClicked (some "old") none)
      "followup" (some "q") none none 3 (Except.ok ()) 3 rfl).1
  · exact c9_response_slot_single_use.2.1
      (handleWebviewAskResponse emptyState .yesButtonClicked (some "old") none)
      "followup" (some "q") none none 3 (Except.ok ()) 3 rfl

/-- Witness for C1 at concrete inputs: on a fresh task, a streaming ask
at time 10, an in-place update at time 15 and a finalization at time 20
leave exactly one log entry, finalized with the text of the last call and
the identity timestamp 10 of the first call. -/
theorem c1_witness :
    (ask (runAskUpds "command" (Except.ok ())
          (ask emptyState "command" (some "a") (some true) none 10 (Except.ok ())).1
          [{ text := some "ab", progressStatus := none, now := 15 }])
        "command" (some "abc") (some false) none 20 (Except.ok ())).1.clineMessages =
      [{ ts := 10, kind := .ask "command", text := some "abc", images := none,
         isPartial := some false, progressStatus := none, checkpoint := false,
         contextCondense := none, reqInfo := none }] := by
  have h := c1_streamed_message_coalescing.1 emptyState "command" (some "a")
    (some "abc") none none 10 20 [{ text := some "ab", progressStatus := none, now := 15 }]
    (Except.ok ()) rfl rfl
  simpa [emptyState] using h

/-- Facts about `abortTask`: it sets the abort flag, clears the pause
interval handle, strengthens `abandoned` only when asked to, and touches
neither message log nor the finished-abort flag. -/
theorem abortTask_facts (s : TaskState) (b : Bool) (save : SaveResult) :
    (abortTask s b save).1.abort = true ∧
    (abortTask s b save).1.pauseInterval = none ∧
    (abortTask s b save).1.abandoned = (b || s.abandoned) ∧
    (abortTask s b save).1.apiConversationHistory = s.apiConversationHistory ∧
    (abortTask s b save).1.clineMessages = s.clineMessages ∧
    (abortTask s b save).1.didFinishAbortingStream = s.didFinishAbortingStream := by
  cases b <;> cases save <;> simp [abortTask, saveClineMessagesFn] <;>
    (try split) <;> simp

/-- Facts about the `abortStream` closure: it flags the finished abort,
leaves the abort/abandoned flags alone, and appends the captured partial
assistant output with the cancel-reason marker to the model history. -/
theorem abortStream_facts (s : TaskState) (cr : CancelReason)
    (sfm : Option String) (am : String) (idx : Nat) (now : Nat) (save : SaveResult) :
    (abortStream s cr sfm am idx now save).1.didFinishAbortingStream = true ∧
    (abortStream s cr sfm am idx now save).1.abort = s.abort ∧
    (abortStream s cr sfm am idx now save).1.apiConversationHistory =
      s.apiConversationHistory ++
        [{ role := .assistant,
           content := [.text (am ++ ("\n\n[" ++ (if cr = CancelReason.streaming_failed
             then "Response interrupted by API Error"
             else "Response interrupted by user") ++ "]"))],
           ts := now }] := by
  rcases hL : s.clineMessages.getLast? with _ | m
  · cases save <;>
    by_cases hd : s.diffViewIsEditing <;>
    simp [abortStream, hL, hd, addToApiConversationHistory,
      saveApiConversationHistoryFn, saveClineMessagesFn, updateApiReqMsg]
  · cases save <;>
    by_cases hd : s.diffViewIsEditing <;>
    by_cases hp : m.isPartial = some true <;>
    simp [abortStream, hL, hd, hp, addToApiConversationHistory,
      saveApiConversationHistoryFn, saveClineMessagesFn, updateApiReqMsg]

/-- C2.  A mid-stream failure (an error thrown by the `for await` chunk
loop after the first chunk already arrived) on a non-abandoned task never
retries the request: the task is cancelled via `abortTask` (abort flag
set, so the next loop entry guard fails fast with `TaskAborted`), the
abort-stream path completes, and the assistant's partial output is
appended to the model-facing history as an assistant message suffixed
with the "Response interrupted by API Error" marker rather than dropped. -/
theorem c2_midstream_failure_cancels_and_preserves
    (s : TaskState) (assistantMessage errorMessage : String)
    (lastApiReqIndex : Nat) (now : Nat) (save : SaveResult)
    (hAb : s.abandoned = false) :
    (handleStreamError s assistantMessage errorMessage lastApiReqIndex now save).1.abort
        = true ∧
    (handleStreamError s assistantMessage errorMessage lastApiReqIndex now
        save).1.didFinishAbortingStream = true ∧
    (handleStreamError s assistantMessage errorMessage lastApiReqIndex now
          save).1.apiConversationHistory =
      s.apiConversationHistory ++
        [{ role := .assistant,
           content := [.text (assistantMessage ++ "\n\n[Response interrupted by API Error]")],
           ts := now }] ∧
    recursivelyMakeClineRequestsGuard
        (handleStreamError s assistantMessage errorMessage lastApiReqIndex now save).1 =
      .error .taskAborted := by
  have hT := abortTask_facts s false save
  have hS := abortStream_facts (abortTask s false save).1 .streaming_failed
    (some errorMessage) assistantMessage lastApiReqIndex now save
  have hmarker : (("\n\n[" ++ "Response interrupted by API Error" ++ "]") : String) =
      "\n\n[Response interrupted by API Error]" := rfl
  simp only [handleStreamError, hAb, Bool.false_eq_true, if_false]
  refine ⟨?_, ?_, ?_, ?_⟩
  · rw [hS.2.1, hT.1]
  · exact hS.1
  · rw [hS.2.2, hT.2.2.2.1]
    simp [hmarker]
  · simp [recursivelyMakeClineRequestsGuard, hS.2.1, hT.1]

/-- Witness for C2 at concrete inputs: a mid-stream failure on a fresh
(non-abandoned) task sets the abort flag and records the partial output
with the API-error marker. -/
theorem c2_witness :
    (handleStreamError emptyState "hello" "boom" 0 9 (Except.ok ())).1.abort = true ∧
    (handleStreamError emptyState "hello" "boom" 0 9 (Except.ok ())).1.apiConversationHistory =
      [{ role := .assistant,
         content := [.text "hello\n\n[Response interrupted by API Error]"],
         ts := 9 }] := by
  have h := c2_midstream_failure_cancels_and_preserves emptyState "hello" "boom" 0 9
    (Except.ok ()) rfl
  refine ⟨h.1, ?_⟩
  rw [h.2.2.1]
  rfl

/-- C3.  The first-chunk auto-retry policy: absent a provider hint, the
wait equals `max(rateLimitDelay, ceil(baseDelay * 2^retryAttempt))`
seconds and the retry recurses with `retryAttempt + 1`; `baseDelay`
defaults to 5 when the setting is absent; with `baseDelay = 5`, no hint
and no rate-limit delay, retry attempt 2 waits exactly 20 seconds; and a
structured HTTP 429 retry-after hint overrides the exponential value (the
overriding value is `N + 1` for a hint of `N` seconds, independent of
`baseDelay` and `retryAttempt`). -/
theorem c3_first_chunk_retry_delay :
    (∀ (rds : Option Nat) (attempt : Nat) (rate : ℤ) (err : ApiRequestError),
      retryHintDelay err = none →
      firstChunkFailureAutoRetry true true rds attempt rate err =
        some { delaySeconds := max ⌈((requestBaseDelay rds : Nat) : ℚ) * 2 ^ attempt⌉ rate,
               nextRetryAttempt := attempt + 1 }) ∧
    requestBaseDelay none = 5 ∧
    firstChunkFailureAutoRetry true true (some 5) 2 0
        { status := none, retryInfo := none } =
      some { delaySeconds := 20, nextRetryAttempt := 3 } ∧
    (∀ (rds : Option Nat) (attempt : Nat) (rate : ℤ) (n : Nat),
      firstChunkFailureAutoRetry true true rds attempt rate
          { status := some 429, retryInfo := some { retryDelaySeconds := some n } } =
        some { delaySeconds := max ((n : ℤ) + 1) rate,
               nextRetryAttempt := attempt + 1 }) := by
  refine ⟨?_, rfl, ?_, ?_⟩
  · intro rds attempt rate err h
    simp [firstChunkFailureAutoRetry, firstChunkRetryDelay, h, exponentialRetryDelay]
  · have : (⌈((5 : ℚ) * 2 ^ 2)⌉ : ℤ) = 20 := by norm_num
    simp [firstChunkFailureAutoRetry, firstChunkRetryDelay, retryHintDelay,
      exponentialRetryDelay, requestBaseDelay]
    norm_num
  · intro rds attempt rate n
    simp [firstChunkFailureAutoRetry, firstChunkRetryDelay, retryHintDelay]

/-- Witness for C3 at concrete inputs: the no-hint conjunct instantiated
at `baseDelay = 5`, attempt 2 and no rate-limit delay. -/
theorem c3_witness :
    firstChunkFailureAutoRetry true true (some 5) 2 0
        { status := none, retryInfo := none } =
      some { delaySeconds := max ⌈((requestBaseDelay (some 5) : Nat) : ℚ) * 2 ^ 2⌉ 0,
             nextRetryAttempt := 3 } :=
  c3_first_chunk_retry_delay.1 (some 5) 2 0 { status := none, retryInfo := none } rfl

/-- C5.  A persistence failure of either log save is caught, logged and
never propagated: the operation still returns normally, the state is the
one a successful save would give (the in-memory mutation is kept), and
the only trace of the failure is the logged error effect. -/
theorem c5_save_failures_swallowed :
    (∀ (s : TaskState) (m : MessageParam) (now : Nat) (e : String),
      (addToApiConversationHistory s m now (Except.error e)).1 =
        (addToApiConversationHistory s m now (Except.ok ())).1 ∧
      (addToApiConversationHistory s m now (Except.error e)).1.apiConversationHistory =
        s.apiConversationHistory ++ [{ role := m.role, content := m.content, ts := now }] ∧
      (addToApiConversationHistory s m now (Except.error e)).2 =
        [.persistenceErrorLogged e]) ∧
    (∀ (s : TaskState) (e : String),
      (saveClineMessagesFn s (Except.error e)).1 = s ∧
      (saveClineMessagesFn s (Except.error e)).2 = [.persistenceErrorLogged e]) ∧
    (∀ (s : TaskState) (m : ClineMessage) (e : String),
      (addToClineMessages s m (Except.error e)).1 =
        (addToClineMessages s m (Except.ok ())).1 ∧
      (addToClineMessages s m (Except.error e)).1.clineMessages =
        s.clineMessages ++ [m]) := by
  refine ⟨?_, ?_, ?_⟩
  · intro s m now e
    exact ⟨rfl, rfl, rfl⟩
  · intro s e
    exact ⟨rfl, rfl⟩
  · intro s m e
    exact ⟨rfl, rfl⟩

/-- An `ask` call never changes the abort flag or the configured
consecutive-mistake limit. -/
theorem ask_preserves_flags (s : TaskState) (tag : String) (text : Option String)
    (ip : Option Bool) (ps : Option String) (now : Nat) (save : SaveResult) :
    (ask s tag text ip ps now save).1.consecutiveMistakeLimit =
      s.consecutiveMistakeLimit ∧
    (ask s tag text ip ps now save).1.abort = s.abort := by
  by_cases hA : s.abort
  · simp [ask, hA]
  · have hA' : s.abort = false := by simpa using hA
    match ip with
    | none =>
      cases save <;>
        simp [ask, hA', askNewComplete, clearAskSlot, addToClineMessages, saveClineMessagesFn]
    | some true =>
      by_cases hG : isUpdatingPreviousPartialAsk s.clineMessages.getLast? tag <;>
      cases save <;>
        simp [ask, hA', hG, askNewPartialTrue, addToClineMessages, saveClineMessagesFn]
    | some false =>
      by_cases hG : isUpdatingPreviousPartialAsk s.clineMessages.getLast? tag <;>
      cases save <;>
        simp [ask, hA', hG, askNewComplete, clearAskSlot, addToClineMessages,
          saveClineMessagesFn]

/-- A `say` call never changes the abort flag or the configured
consecutive-mistake limit. -/
theorem say_preserves_flags (s : TaskState) (tag : String) (text : Option String)
    (images : Option (List String)) (ip : Option Bool) (ckpt : Bool)
    (ps : Option String) (ni : Bool) (cc : Option ContextCondense)
    (now : Nat) (save : SaveResult) :
    (say s tag text images ip ckpt ps ni cc now save).1.consecutiveMistakeLimit =
      s.consecutiveMistakeLimit ∧
    (say s tag text images ip ckpt ps ni cc now save).1.abort = s.abort := by
  by_cases hA : s.abort
  · simp [say, hA]
  · have hA' : s.abort = false := by simpa using hA
    match ip with
    | none =>
      cases ni <;> cases save <;>
        simp [say, hA', addToClineMessages, saveClineMessagesFn]
    | some true =>
      by_cases hG : isUpdatingPreviousPartialSay s.clineMessages.getLast? tag <;>
      cases ni <;> cases save <;>
        simp [say, hA', hG, sayNewPartialTrue, addToClineMessages, saveClineMessagesFn]
    | some false =>
      by_cases hG : isUpdatingPreviousPartialSay s.clineMessages.getLast? tag <;>
      cases ni <;> cases save <;>
        simp [say, hA', hG, sayNewCompleteFalse, addToClineMessages, saveClineMessagesFn]

/-- C6.  Resuming a paused parent with a child result `R` clears the
paused flag, appends a `subtask_result` display message carrying `R`, and
appends a user-role model message whose text is exactly
`"[new_task completed] Result: R"`, completing normally so the parent
loop can continue. -/
theorem c6_resume_paused_task (s : TaskState) (childResult : String) (now : Nat)
    (save : SaveResult) (hA : s.abort = false) :
    (resumePausedTask s childResult now save).2.2 = SayOutcome.completed ∧
    (resumePausedTask s childResult now save).1.isPaused = false ∧
    (resumePausedTask s childResult now save).1.clineMessages =
      s.clineMessages ++
        [{ ts := now, kind := .say "subtask_result", text := some childResult,
           images := none, isPartial := none, progressStatus := none,
           checkpoint := false, contextCondense := none, reqInfo := none }] ∧
    (resumePausedTask s childResult now save).1.apiConversationHistory =
      s.apiConversationHistory ++
        [{ role := .user,
           content := [.text ("[new_task completed] Result: " ++ childResult)],
           ts := now }] := by
  cases save <;>
    simp [resumePausedTask, say, hA, addToClineMessages, saveClineMessagesFn,
      addToApiConversationHistory, saveApiConversationHistoryFn]

/-- Witness for C6 at concrete inputs: resuming a fresh paused task with
child result "R" at time 4. -/
theorem c6_witness :
    (resumePausedTask { emptyState with isPaused := true } "R" 4
        (Except.ok ())).1.isPaused = false ∧
    (resumePausedTask { emptyState with isPaused := true } "R" 4
        (Except.ok ())).1.apiConversationHistory =
      [{ role := .user, content := [.text "[new_task completed] Result: R"], ts := 4 }] := by
  have h := c6_resume_paused_task { emptyState with isPaused := true } "R" 4
    (Except.ok ()) rfl
  refine ⟨h.2.1, ?_⟩
  rw [h.2.2.2]
  rfl

/-- C7.  A loop iteration entered with
`consecutiveMistakeCount >= consecutiveMistakeLimit` issues the blocking
mistake-limit ask; a substantive (`messageResponse`) reply is folded into
the turn's user content while any other reply leaves it unchanged; in all
cases the counter is reset to exactly 0, so with a positive limit an
immediate second run of the guard is a no-op (the nudge is not added
twice). -/
theorem c7_mistake_limit_reset (s : TaskState) (userContent : List Block)
    (askText : String) (resp : AskResult)
    (tooManyMistakes : Option String → String)
    (imageBlocks : Option (List String) → List Block)
    (now : Nat) (save : SaveResult)
    (hL : s.consecutiveMistakeCount ≥ s.consecutiveMistakeLimit) :
    (mistakeLimitGuard s userContent askText resp tooManyMistakes imageBlocks now
        save).1.consecutiveMistakeCount = 0 ∧
    (resp.response = ClineAskResponse.messageResponse →
      (mistakeLimitGuard s userContent askText resp tooManyMistakes imageBlocks now
          save).2.1 =
        userContent ++ [Block.text (tooManyMistakes resp.text)] ++
          imageBlocks resp.images) ∧
    (resp.response ≠ ClineAskResponse.messageResponse →
      (mistakeLimitGuard s userContent askText resp tooManyMistakes imageBlocks now
          save).2.1 = userContent) ∧
    (0 < s.consecutiveMistakeLimit →
      mistakeLimitGuard
          (mistakeLimitGuard s userContent askText resp tooManyMistakes imageBlocks
            now save).1
          (mistakeLimitGuard s userContent askText resp tooManyMistakes imageBlocks
            now save).2.1
          askText resp tooManyMistakes imageBlocks now save =
        ((mistakeLimitGuard s userContent askText resp tooManyMistakes imageBlocks
            now save).1,
         (mistakeLimitGuard s userContent askText resp tooManyMistakes imageBlocks
            now save).2.1,
         [])) := by
  have hLimit :
      (mistakeLimitGuard s userContent askText resp tooManyMistakes imageBlocks now
          save).1.consecutiveMistakeLimit = s.consecutiveMistakeLimit := by
    by_cases hr : resp.response = ClineAskResponse.messageResponse <;>
      simp [mistakeLimitGuard, hL, hr,
        (say_preserves_flags (ask s "mistake_limit_reached" (some askText) none none
          now save).1 "user_feedback" resp.text resp.images none false none false none
          now save).1,
        (ask_preserves_flags s "mistake_limit_reached" (some askText) none none now
          save).1]
  have hCount :
      (mistakeLimitGuard s userContent askText resp tooManyMistakes imageBlocks now
          save).1.consecutiveMistakeCount = 0 := by
    by_cases hr : resp.response = ClineAskResponse.messageResponse <;>
      simp [mistakeLimitGuard, hL, hr]
  refine ⟨hCount, ?_, ?_, ?_⟩
  · intro hr
    simp [mistakeLimitGuard, hL, hr]
  · intro hr
    simp [mistakeLimitGuard, hL, hr]
  · intro hpos
    have hno : ¬ ((mistakeLimitGuard s userContent askText resp tooManyMistakes
        imageBlocks now save).1.consecutiveMistakeCount ≥
        (mistakeLimitGuard s userContent askText resp tooManyMistakes imageBlocks now
          save).1.consecutiveMistakeLimit) := by
      rw [hCount, hLimit]
      omega
    rw [mistakeLimitGuard, if_neg hno]

/-- Witness for C7 at concrete inputs: a task at the limit (count 3,
limit 3) with a non-substantive reply resets the counter to 0 and a
second guard run is a no-op. -/
theorem c7_witness :
    (mistakeLimitGuard { emptyState with consecutiveMistakeCount := 3 } []
        "guidance" { response := .yesButtonClicked, text := none, images := none }
        (fun _ => "") (fun _ => []) 2
        (Except.ok ())).1.consecutiveMistakeCount = 0 := by
  exact (c7_mistake_limit_reset { emptyState with consecutiveMistakeCount := 3 } []
    "guidance" { response := .yesButtonClicked, text := none, images := none }
    (fun _ => "") (fun _ => []) 2 (Except.ok ()) (by simp [emptyState])).1

/-- A task whose display log ends in a trailing streaming (`partial=true`)
say of subtype "text", used to exercise the in-place update path. -/
def streamingSayState : TaskState :=
  { emptyState with clineMessages :=
      [{ ts := 5, kind := .say "text", text := some "a", images := none,
         isPartial := some true, progressStatus := none, checkpoint := false,
         contextCondense := none, reqInfo := none }] }

/-- Counterexample to C8 as stated: the in-place update of a trailing
`partial=true` display message (here a streaming say continuing at
time 7 with a successful persistence environment) publishes only the
update notification — its effect list contains neither a persistence
call nor a metrics re-derivation. -/
theorem c8_counterexample :
    (say streamingSayState "text" (some "ab") none (some true) false none false none 7
        (Except.ok ())).2.1 = [.postPartialMessageToWebview 5, .messageUpdated 5] ∧
    Effect.saveTaskMessages ∉
      (say streamingSayState "text" (some "ab") none (some true) false none false none 7
        (Except.ok ())).2.1 ∧
    Effect.taskTokenUsageUpdated ∉
      (say streamingSayState "text" (some "ab") none (some true) false none false none 7
        (Except.ok ())).2.1 := by
  refine ⟨?_, ?_, ?_⟩ <;> decide

/-- C8 (amended).  Appends (new streaming, new complete and atomic
messages, by `ask` or `say`) persist the display log and publish it,
triggering both the presentation notification and a metrics
re-derivation pass; the finalization of a trailing `partial=true` message
(by `ask` or `say`) likewise persists, re-derives metrics and notifies;
but the in-place update of a trailing `partial=true` message (by `ask`
or `say`) only posts an update notification to the presentation
collaborator — it does not persist and does not re-derive metrics. -/
theorem c8_amended_mutation_effects :
    (∀ (s : TaskState) (base : List ClineMessage) (m : ClineMessage) (tag : String)
       (text : Option String) (images : Option (List String)) (ckpt : Bool)
       (ps : Option String) (ni : Bool) (cc : Option ContextCondense) (now : Nat)
       (save : SaveResult),
      s.abort = false → s.clineMessages = base ++ [m] →
      m.isPartial = some true → m.kind = MsgKind.say tag →
      (say s tag text images (some true) ckpt ps ni cc now save).2.1 =
        [.postPartialMessageToWebview m.ts, .messageUpdated m.ts]) ∧
    (∀ (s : TaskState) (base : List ClineMessage) (m : ClineMessage) (tag : String)
       (text : Option String) (ps : Option String) (now : Nat) (save : SaveResult),
      s.abort = false → s.clineMessages = base ++ [m] →
      m.isPartial = some true → m.kind = MsgKind.ask tag →
      (ask s tag text (some true) ps now save).2.1 =
        [.postPartialMessageToWebview m.ts, .messageUpdated m.ts]) ∧
    (∀ (s : TaskState) (tag : String) (text : Option String)
       (images : Option (List String)) (ckpt : Bool) (ps : Option String)
       (ni : Bool) (cc : Option ContextCondense) (now : Nat),
      s.abort = false →
      isUpdatingPreviousPartialSay s.clineMessages.getLast? tag = false →
      (say s tag text images (some true) ckpt ps ni cc now (Except.ok ())).2.1 =
        [.postStateToWebview, .messageCreated now, .saveTaskMessages,
         .taskTokenUsageUpdated, .updateTaskHistory]) ∧
    (∀ (s : TaskState) (base : List ClineMessage) (m : ClineMessage) (tag : String)
       (text : Option String) (images : Option (List String)) (ckpt : Bool)
       (ps : Option String) (ni : Bool) (cc : Option ContextCondense) (now : Nat),
      s.abort = false → s.clineMessages = base ++ [m] →
      m.isPartial = some true → m.kind = MsgKind.say tag →
      (say s tag text images (some false) ckpt ps ni cc now (Except.ok ())).2.1 =
        [.saveTaskMessages, .taskTokenUsageUpdated, .updateTaskHistory,
         .postPartialMessageToWebview m.ts, .messageUpdated m.ts]) ∧
    (∀ (s : TaskState) (tag : String) (text : Option String)
       (images : Option (List String)) (ckpt : Bool) (cc : Option ContextCondense)
       (ni : Bool) (now : Nat),
      s.abort = false →
      (say s tag text images none ckpt none ni cc now (Except.ok ())).2.1 =
        [.postStateToWebview, .messageCreated now, .saveTaskMessages,
         .taskTokenUsageUpdated, .updateTaskHistory]) ∧
    (∀ (s : TaskState) (tag : String) (text : Option String)
       (images : Option (List String)) (ckpt : Bool) (ps : Option String)
       (ni : Bool) (cc : Option ContextCondense) (now : Nat),
      s.abort = false →
      isUpdatingPreviousPartialSay s.clineMessages.getLast? tag = false →
      (say s tag text images (some false) ckpt ps ni cc now (Except.ok ())).2.1 =
        [.postStateToWebview, .messageCreated now, .saveTaskMessages,
         .taskTokenUsageUpdated, .updateTaskHistory]) ∧
    (∀ (s : TaskState) (tag : String) (text : Option String) (ps : Option String)
       (now : Nat),
      s.abort = false →
      isUpdatingPreviousPartialAsk s.clineMessages.getLast? tag = false →
      (ask s tag text (some true) ps now (Except.ok ())).2.1 =
        [.postStateToWebview, .messageCreated now, .saveTaskMessages,
         .taskTokenUsageUpdated, .updateTaskHistory]) ∧
    (∀ (s : TaskState) (tag : String) (text : Option String) (ps : Option String)
       (now : Nat),
      s.abort = false →
      (ask s tag text none ps now (Except.ok ())).2.1 =
        [.postStateToWebview, .messageCreated now, .saveTaskMessages,
         .taskTokenUsageUpdated, .updateTaskHistory]) ∧
    (∀ (s : TaskState) (tag : String) (text : Option String) (ps : Option String)
       (now : Nat),
      s.abort = false →
      isUpdatingPreviousPartialAsk s.clineMessages.getLast? tag = false →
      (ask s tag text (some false) ps now (Except.ok ())).2.1 =
        [.postStateToWebview, .messageCreated now, .saveTaskMessages,
         .taskTokenUsageUpdated, .updateTaskHistory]) ∧
    (∀ (s : TaskState) (base : List ClineMessage) (m : ClineMessage) (tag : String)
       (text : Option String) (ps : Option String) (now : Nat),
      s.abort = false → s.clineMessages = base ++ [m] →
      m.isPartial = some true → m.kind = MsgKind.ask tag →
      (ask s tag text (some false) ps now (Except.ok ())).2.1 =
        [.saveTaskMessages, .taskTokenUsageUpdated, .updateTaskHistory,
         .postPartialMessageToWebview m.ts, .messageUpdated m.ts]) := by
  refine ⟨?_, ?_, ?_, ?_, ?_, ?_, ?_, ?_, ?_, ?_⟩
  · intro s base m tag text images ckpt ps ni cc now save hA hM hp hk
    simp [say, hA, hM, isUpdatingPreviousPartialSay, hp, hk, updateLastEffects_concat]
  · intro s base m tag text ps now save hA hM hp hk
    simp [ask, hA, hM, isUpdatingPreviousPartialAsk, hp, hk, updateLastEffects_concat]
  · intro s tag text images ckpt ps ni cc now hA hG
    cases ni <;>
      simp [say, hA, hG, sayNewPartialTrue, addToClineMessages, saveClineMessagesFn]
  · intro s base m tag text images ckpt ps ni cc now hA hM hp hk
    cases ni <;>
      simp [say, hA, hM, isUpdatingPreviousPartialSay, hp, hk, setLast_concat,
        lastTsOf_concat, saveClineMessagesFn, updateLastEffects_concat]
  · intro s tag text images ckpt cc ni now hA
    cases ni <;>
      simp [say, hA, addToClineMessages, saveClineMessagesFn]
  · intro s tag text images ckpt ps ni cc now hA hG
    cases ni <;>
      simp [say, hA, hG, sayNewCompleteFalse, addToClineMessages, saveClineMessagesFn]
  · intro s tag text ps now hA hG
    simp [ask, hA, hG, askNewPartialTrue, addToClineMessages, saveClineMessagesFn]
  · intro s tag text ps now hA
    simp [ask, hA, askNewComplete, clearAskSlot, addToClineMessages, saveClineMessagesFn]
  · intro s tag text ps now hA hG
    simp [ask, hA, hG, askNewComplete, clearAskSlot, addToClineMessages,
      saveClineMessagesFn]
  · intro s base m tag text ps now hA hM hp hk
    simp [ask, hA, hM, isUpdatingPreviousPartialAsk, hp, hk, setLast_concat,
      lastTsOf_concat, clearAskSlot, saveClineMessagesFn, updateLastEffects_concat]

/-- Witness for the amended C8 at concrete inputs: the same in-place
update as the counterexample emits exactly the publish-only effects,
while an atomic say and an atomic ask on a fresh task emit notification,
persistence and metrics effects. -/
theorem c8_amended_witness :
    (say streamingSayState "text" (some "abc") none (some true) false none false none 8
        (Except.ok ())).2.1 = [.postPartialMessageToWebview 5, .messageUpdated 5] ∧
    (say emptyState "text" (some "hi") none none false none false none 4
        (Except.ok ())).2.1 =
      [.postStateToWebview, .messageCreated 4, .saveTaskMessages,
       .taskTokenUsageUpdated, .updateTaskHistory] ∧
    (ask emptyState "followup" (some "q") none none 6 (Except.ok ())).2.1 =
      [.postStateToWebview, .messageCreated 6, .saveTaskMessages,
       .taskTokenUsageUpdated, .updateTaskHistory] := by
  refine ⟨?_, ?_, ?_⟩
  · exact c8_amended_mutation_effects.1 streamingSayState []
      { ts := 5, kind := .say "text", text := some "a", images := none,
        isPartial := some true, progressStatus := none, checkpoint := false,
        contextCondense := none, reqInfo := none }
      "text" (some "abc") none false none false none 8 (Except.ok ())
      rfl rfl rfl rfl
  · exact c8_amended_mutation_effects.2.2.2.2.1 emptyState "text" (some "hi") none
      false none false 4 rfl
  · exact c8_amended_mutation_effects.2.2.2.2.2.2.2.1 emptyState "followup"
      (some "q") none 6 rfl

/-- Invariant used for C10: once the polling interval of a pending
`waitForResume` has been cleared, no later event resolves it. -/
theorem runWait_inactive_never_resolves (events : List WaitEvent) :
    ∀ (w : WaitState), w.timerActive = false → w.resolved = false →
    (runWait w events).resolved = false := by
  induction events with
  | nil =>
    intro w _ h2
    simpa [runWait] using h2
  | cons e rest ih =>
    intro w h1 h2
    have hstep : runWait w (e :: rest) = runWait (waitStep w e) rest := rfl
    rw [hstep]
    cases e with
    | tick =>
      have : waitStep w .tick = w := by simp [waitStep, h1]
      rw [this]
      exact ih w h1 h2
    | clearByAbort =>
      exact ih _ (by simp [waitStep]) (by simpa [waitStep] using h2)
    | unpause =>
      exact ih _ (by simpa [waitStep] using h1) (by simpa [waitStep] using h2)

/-- C10.  `abortTask` always leaves the task with no registered pause
interval handle (the timer is cleared and set to undefined), and once the
abort has cleared the interval of a pending `waitForResume`, the pending
promise never resolves under any later sequence of events — interval
ticks included — even if the paused flag is later cleared. -/
theorem c10_abort_kills_pause_wait :
    (∀ (s : TaskState) (b : Bool) (save : SaveResult),
      (abortTask s b save).1.pauseInterval = none) ∧
    (∀ (w : WaitState) (events : List WaitEvent),
      w.timerActive = true → w.resolved = false →
      (waitStep w .clearByAbort).timerActive = false ∧
      (runWait (waitStep w .clearByAbort) events).resolved = false) := by
  constructor
  · intro s b save
    exact (abortTask_facts s b save).2.1
  · intro w events _ h2
    refine ⟨by simp [waitStep], ?_⟩
    exact runWait_inactive_never_resolves events _ (by simp [waitStep])
      (by simpa [waitStep] using h2)

/-- Witness for C10 at concrete inputs: a pending paused wait whose
interval is cleared by an abort does not resolve even after the paused
flag is cleared and further ticks fire. -/
theorem c10_witness :
    (runWait (waitStep { timerActive := true, resolved := false, isPaused := true }
        .clearByAbort) [.unpause, .tick, .tick]).resolved = false := by
  exact (c10_abort_kills_pause_wait.2
    { timerActive := true, resolved := false, isPaused := true }
    [.unpause, .tick, .tick] rfl rfl).2

end Zgsm
